import Mathlib

/-!
Verification of the audio-capture state machine of `voice_prompt`
(`src/voice_prompt/recorder.py`, class `AudioRecorder`).

The recorder is embedded shallowly:

* Python floats are modelled as exact rationals (every IEEE-754 double is a
  rational); the one place where floating-point *rounding* changes observable
  behaviour — the threshold computations `int(x / 0.1)` in `start()` — is
  modelled faithfully by `roundToDouble`, round-to-nearest-ties-to-even at
  53 bits of precision for positive values in the normal range.  All
  durations/thresholds appearing in the program and in the claims are
  positive and far away from the subnormal and overflow ranges.
* `numpy` int16 chunks are lists of integers in [-32768, 32767]; `np.abs`
  wraps at -32768 exactly as int16 does (`abs16`).  The float64 arithmetic
  of `np.mean` is exact for the sums involved except for the final division,
  whose rounding is far below the granularity of any threshold comparison in
  the claims, so the mean is taken in exact rational arithmetic.
* The stream object only produces side effects (callbacks); its existence is
  tracked by the `has_stream` flag.  `on_auto_stop` being set is tracked by
  `on_auto_stop_present`; an `ingest` step reports the automatic-stop
  condition it triggered (if any) as an `Option StopReason` — the Python
  code spawns the `on_auto_stop` thread exactly when such a condition fires
  and the callback is present.
-/

/-- Round-to-nearest, ties to even, of a rational to an integer. -/
def rne (x : ℚ) : ℤ :=
  if x - ⌊x⌋ < 1/2 then ⌊x⌋
  else if 1/2 < x - ⌊x⌋ then ⌊x⌋ + 1
  else if ⌊x⌋ % 2 = 0 then ⌊x⌋ else ⌊x⌋ + 1

/-- Floor of the base-2 logarithm of a natural number, by structural
recursion on a fuel argument (the number itself bounds the recursion
depth), so that the kernel can evaluate it. -/
def log2fuel : ℕ → ℕ → ℕ
  | 0, _ => 0
  | fuel + 1, n => if n < 2 then 0 else log2fuel fuel (n / 2) + 1

/-- Floor of the base-2 logarithm of a natural number (0 for 0 and 1). -/
def natLog2 (n : ℕ) : ℕ := log2fuel n n

/-- Floor of the base-2 logarithm of a positive rational (valid for
arguments of magnitude at least 2^(-100), which covers every float in this
development). -/
def floorLog2 (q : ℚ) : ℤ :=
  (natLog2 (⌊q * 2 ^ 100⌋).toNat : ℤ) - 100

/-- The IEEE-754 binary64 value nearest to a rational: the significand is
rounded to 53 bits, ties to even.  Modelled for nonnegative values in the
normal range, which covers every float computed by `recorder.py`. -/
def roundToDouble (q : ℚ) : ℚ :=
  if q ≤ 0 then 0
  else (rne (q / 2 ^ (floorLog2 q - 52)) : ℚ) * 2 ^ (floorLog2 q - 52)

/-- Python `int()` applied to a float: truncation toward zero. -/
def pyInt (q : ℚ) : ℤ := Int.tdiv q.num q.den

/-- Python float division: exact quotient, rounded back to a double. -/
def pyDiv (a b : ℚ) : ℚ := roundToDouble (a / b)

/-- The double denoted by the Python literal 0.1. -/
def fp01 : ℚ := roundToDouble (1/10)

/-- The double denoted by the Python literal 0.01 (default silence threshold). -/
def fp001 : ℚ := roundToDouble (1/100)

/-- The double denoted by the Python literal 0.3. -/
def fp03 : ℚ := roundToDouble (3/10)

/-- Why an `_audio_callback` run turned `_recording` off: the three automatic
stop conditions of `recorder.py`. -/
inductive StopReason
  | silence
  | grace
  | maxdur
deriving DecidableEq, Repr

/-- The observable state of an `AudioRecorder` object.  Configuration fields
come first (set in `__init__`), then the mutable recording state.  Python
creates `_silent_chunks`, `_chunk_size`, `_max_chunks`,
`_silence_chunks_needed` and `_grace_chunks` only inside `start()`; they are
never read before `start()` sets them, so they carry the dummy value 0 in a
fresh object here. -/
structure AudioRecorder where
  sample_rate : ℤ
  channels : ℤ
  silence_threshold : ℚ
  silence_duration : ℚ
  grace_period : ℚ
  max_duration : ℚ
  on_auto_stop_present : Bool
  recording : Bool
  speech_detected : Bool
  frames : List (List ℤ)
  silent_chunks : ℤ
  chunk_size : ℤ
  max_chunks : ℤ
  silence_chunks_needed : ℤ
  grace_chunks : ℤ
  has_stream : Bool
deriving DecidableEq, Repr

/-- `AudioRecorder.__init__`: stores the configuration and sets
`_recording = False`, `_speech_detected = False`, `_frames = []`. -/
def init (sample_rate channels : ℤ)
    (silence_threshold silence_duration grace_period max_duration : ℚ)
    (on_auto_stop_present : Bool) : AudioRecorder :=
  { sample_rate := sample_rate
    channels := channels
    silence_threshold := silence_threshold
    silence_duration := silence_duration
    grace_period := grace_period
    max_duration := max_duration
    on_auto_stop_present := on_auto_stop_present
    recording := false
    speech_detected := false
    frames := []
    silent_chunks := 0
    chunk_size := 0
    max_chunks := 0
    silence_chunks_needed := 0
    grace_chunks := 0
    has_stream := false }

/-- `AudioRecorder.start`: a no-op when already recording, otherwise resets
the frame buffer and counters and fixes the chunk thresholds
(`int(duration / 0.1)` in double arithmetic) before opening the stream. -/
def start (r : AudioRecorder) : AudioRecorder :=
  if r.recording = true then r
  else
    { r with
      frames := []
      recording := true
      speech_detected := false
      silent_chunks := 0
      chunk_size := pyInt (roundToDouble ((r.sample_rate : ℚ) * fp01))
      max_chunks := pyInt (pyDiv r.max_duration fp01)
      silence_chunks_needed := pyInt (pyDiv r.silence_duration fp01)
      grace_chunks := pyInt (pyDiv r.grace_period fp01)
      has_stream := true }

/-- Absolute value as computed by `np.abs` on int16: the value -32768
overflows back to -32768. -/
def abs16 (s : ℤ) : ℤ := if s = -32768 then -32768 else |s|

/-- Normalized mean absolute amplitude of a chunk:
`np.abs(indata).mean() / 32768.0`. -/
def amplitude (c : List ℤ) : ℚ :=
  (((c.map abs16).sum : ℚ) / (c.length : ℚ)) / 32768

/-- The classification block of `_audio_callback`: a silent chunk increments
`_silent_chunks`; a speech chunk sets `_speech_detected` and resets the
silent run. -/
def classifyUpdate (r : AudioRecorder) (c : List ℤ) : AudioRecorder :=
  if amplitude c < r.silence_threshold then
    { r with silent_chunks := r.silent_chunks + 1 }
  else
    { r with speech_detected := true, silent_chunks := 0 }

/-- The three stop-condition checks at the end of `_audio_callback`, in
source order: post-speech silence, grace timeout, max duration. -/
def checkStops (r : AudioRecorder) : AudioRecorder × Option StopReason :=
  if r.speech_detected = true ∧ r.silence_chunks_needed ≤ r.silent_chunks then
    ({ r with recording := false }, some StopReason.silence)
  else if r.speech_detected = false ∧ r.grace_chunks ≤ (r.frames.length : ℤ) then
    ({ r with recording := false }, some StopReason.grace)
  else if r.max_chunks ≤ (r.frames.length : ℤ) then
    ({ r with recording := false }, some StopReason.maxdur)
  else (r, none)

/-- `AudioRecorder._audio_callback` on one chunk (`ingest` in the spec):
a no-op when not recording; otherwise append a copy of the chunk, classify
it when the silence threshold is positive, and evaluate the stop
conditions.  The returned `Option StopReason` is the automatic-stop
condition that fired, if any — exactly when the Python code dispatches
`on_auto_stop` (provided the callback is present). -/
def audio_callback (r : AudioRecorder) (c : List ℤ) : AudioRecorder × Option StopReason :=
  if r.recording = false then (r, none)
  else if 0 < r.silence_threshold then
    checkStops (classifyUpdate { r with frames := r.frames ++ [c] } c)
  else if { r with frames := r.frames ++ [c] }.max_chunks ≤
      (({ r with frames := r.frames ++ [c] } : AudioRecorder).frames.length : ℤ) then
    ({ r with frames := r.frames ++ [c], recording := false }, some StopReason.maxdur)
  else ({ r with frames := r.frames ++ [c] }, none)

/-- `AudioRecorder.stop`: returns the concatenated samples that are written
into the WAV data section, or `none` when there is no data.  The frame
buffer is not cleared. -/
def stop (r : AudioRecorder) : AudioRecorder × Option (List ℤ) :=
  if r.recording = false ∧ r.frames = [] then (r, none)
  else if r.frames = [] then ({ r with recording := false }, none)
  else ({ r with recording := false }, some r.frames.flatten)

/-- `AudioRecorder.cancel`: discards the frame buffer and stops recording. -/
def cancel (r : AudioRecorder) : AudioRecorder :=
  { r with recording := false, frames := [] }

/-- Little-endian two-byte encoding of one int16 sample, as `tobytes()`
produces for the WAV data section. -/
def int16LE (s : ℤ) : List ℕ :=
  [(s % 65536).toNat % 256, (s % 65536).toNat / 256]

/-- The WAV data section written by `stop()` for a given sample sequence. -/
def wavDataSection (samples : List ℤ) : List ℕ :=
  samples.flatMap int16LE

/-- One operation applied to a live session: a driver callback delivering a
chunk, an explicit `stop()`, or a `cancel()`. -/
inductive Op
  | ing (c : List ℤ)
  | stp
  | cnc
deriving DecidableEq, Repr

/-- Applies one operation; the event is the automatic-stop condition fired
by this operation (always `none` for `stop()` and `cancel()`). -/
def step (r : AudioRecorder) : Op → AudioRecorder × Option StopReason
  | Op.ing c => audio_callback r c
  | Op.stp => ((stop r).1, none)
  | Op.cnc => (cancel r, none)

/-- Runs a sequence of operations, returning the final state. -/
def runOps (r : AudioRecorder) : List Op → AudioRecorder
  | [] => r
  | op :: ops => runOps (step r op).1 ops

/-- Runs a sequence of operations, returning the per-operation
automatic-stop events in order. -/
def runEvents (r : AudioRecorder) : List Op → List (Option StopReason)
  | [] => []
  | op :: ops => (step r op).2 :: runEvents (step r op).1 ops

/-- Number of automatic-stop events in an event list; `on_auto_stop` is
invoked exactly this many times when the callback is present. -/
def countFires (es : List (Option StopReason)) : ℕ :=
  es.countP Option.isSome

/-- Runs a sequence of driver callbacks only. -/
def runIngest (r : AudioRecorder) : List (List ℤ) → AudioRecorder
  | [] => r
  | c :: cs => runIngest (audio_callback r c).1 cs

/-- Automatic-stop events of a sequence of driver callbacks. -/
def ingestEvents (r : AudioRecorder) : List (List ℤ) → List (Option StopReason)
  | [] => []
  | c :: cs => (audio_callback r c).2 :: ingestEvents (audio_callback r c).1 cs

/-- The chunks a run of driver callbacks actually appends: those delivered
while `_recording` is still set. -/
def acceptedChunks (r : AudioRecorder) : List (List ℤ) → List (List ℤ)
  | [] => []
  | c :: cs =>
    if r.recording then c :: acceptedChunks (audio_callback r c).1 cs
    else acceptedChunks r cs

/-- A recorder built with the default configuration of `AudioRecorder.__init__`
(sample_rate 16000, channels 1, silence_threshold 0.01, silence_duration 2.0,
grace_period 10.0, max_duration 120.0) and an `on_auto_stop` callback. -/
def cfgDefault : AudioRecorder := init 16000 1 fp001 2 10 120 true

/-- The configuration of claim C4: silence_duration 0.3, otherwise defaults. -/
def cfgC4 : AudioRecorder := init 16000 1 fp001 fp03 10 120 true

/-- A session that has auto-stopped with one undrained frame: max_duration
0.1 gives `_max_chunks = 1`, so the first chunk triggers the max-duration
stop. -/
def c5stopped : AudioRecorder :=
  (audio_callback (start (init 16000 1 fp001 2 10 (roundToDouble (1/10)) true)) [7]).1

/-! ### Basic facts about the embedded operations -/

theorem audio_callback_not_recording {r : AudioRecorder} (c : List ℤ)
    (h : r.recording = false) : audio_callback r c = (r, none) := by
  unfold audio_callback
  rw [if_pos h]

theorem classifyUpdate_frames (r : AudioRecorder) (c : List ℤ) :
    (classifyUpdate r c).frames = r.frames := by
  unfold classifyUpdate
  split <;> rfl

theorem classifyUpdate_threshold (r : AudioRecorder) (c : List ℤ) :
    (classifyUpdate r c).silence_threshold = r.silence_threshold := by
  unfold classifyUpdate
  split <;> rfl

theorem checkStops_frames (r : AudioRecorder) :
    (checkStops r).1.frames = r.frames := by
  unfold checkStops
  split_ifs <;> rfl

theorem checkStops_threshold (r : AudioRecorder) :
    (checkStops r).1.silence_threshold = r.silence_threshold := by
  unfold checkStops
  split_ifs <;> rfl

theorem checkStops_fire_not_recording (r : AudioRecorder) :
    (checkStops r).2.isSome = true → (checkStops r).1.recording = false := by
  unfold checkStops
  split_ifs <;> intro h <;> first | rfl | simp at h

theorem checkStops_none_recording (r : AudioRecorder) :
    (checkStops r).2 = none → (checkStops r).1.recording = r.recording := by
  unfold checkStops
  split_ifs <;> intro h <;> first | rfl | simp at h

theorem audio_callback_frames {r : AudioRecorder} (c : List ℤ)
    (h : r.recording = true) :
    (audio_callback r c).1.frames = r.frames ++ [c] := by
  unfold audio_callback
  rw [if_neg (by simp [h])]
  split_ifs
  · rw [checkStops_frames, classifyUpdate_frames]
  · rfl
  · rfl

theorem audio_callback_threshold (r : AudioRecorder) (c : List ℤ) :
    (audio_callback r c).1.silence_threshold = r.silence_threshold := by
  unfold audio_callback
  split_ifs
  · rfl
  · rw [checkStops_threshold, classifyUpdate_threshold]
  · rfl
  · rfl

theorem audio_callback_fire_not_recording (r : AudioRecorder) (c : List ℤ) :
    (audio_callback r c).2.isSome = true → (audio_callback r c).1.recording = false := by
  unfold audio_callback
  split_ifs <;> intro h
  · simp at h
  · exact checkStops_fire_not_recording _ h
  · rfl
  · simp at h

theorem audio_callback_stays_stopped {r : AudioRecorder} (c : List ℤ)
    (h : r.recording = false) : (audio_callback r c).1.recording = false := by
  rw [audio_callback_not_recording c h]
  exact h

theorem stop_state_recording (r : AudioRecorder) :
    ((stop r).1).recording = false ∨ (stop r).1 = r := by
  unfold stop
  split_ifs with h1 h2
  · exact Or.inr rfl
  · exact Or.inl rfl
  · exact Or.inl rfl

theorem stop_stays_stopped {r : AudioRecorder} (h : r.recording = false) :
    ((stop r).1).recording = false := by
  rcases stop_state_recording r with h' | h'
  · exact h'
  · rw [h', h]

theorem step_event_stp (r : AudioRecorder) : (step r Op.stp).2 = none := rfl

theorem step_event_cnc (r : AudioRecorder) : (step r Op.cnc).2 = none := rfl

theorem step_stays_stopped {r : AudioRecorder} (op : Op)
    (h : r.recording = false) : (step r op).1.recording = false := by
  cases op with
  | ing c => exact audio_callback_stays_stopped c h
  | stp => exact stop_stays_stopped h
  | cnc => rfl

theorem step_event_none_of_not_recording {r : AudioRecorder} (op : Op)
    (h : r.recording = false) : (step r op).2 = none := by
  cases op with
  | ing c => rw [step, audio_callback_not_recording c h]
  | stp => rfl
  | cnc => rfl

theorem step_fire_not_recording (r : AudioRecorder) (op : Op) :
    (step r op).2.isSome = true → (step r op).1.recording = false := by
  cases op with
  | ing c => exact audio_callback_fire_not_recording r c
  | stp => intro h; simp [step_event_stp] at h
  | cnc => intro h; simp [step_event_cnc] at h

/-! ### Trace lemmas -/

theorem countFires_nil : countFires [] = 0 := rfl

theorem countFires_cons (e : Option StopReason) (es : List (Option StopReason)) :
    countFires (e :: es) = countFires es + if e.isSome then 1 else 0 := by
  unfold countFires
  rw [List.countP_cons]

theorem countFires_zero_of_not_recording (ops : List Op) :
    ∀ r : AudioRecorder, r.recording = false → countFires (runEvents r ops) = 0 := by
  induction ops with
  | nil => intro r _; rfl
  | cons op ops ih =>
    intro r h
    rw [runEvents, countFires_cons, step_event_none_of_not_recording op h,
      ih _ (step_stays_stopped op h)]
    rfl

theorem countFires_le_one (ops : List Op) :
    ∀ r : AudioRecorder, countFires (runEvents r ops) ≤ 1 := by
  induction ops with
  | nil => intro r; exact Nat.zero_le 1
  | cons op ops ih =>
    intro r
    rw [runEvents, countFires_cons]
    by_cases h : (step r op).2.isSome = true
    · rw [countFires_zero_of_not_recording ops _ (step_fire_not_recording r op h)]
      simp [h]
    · have : ((step r op).2.isSome : Bool) = false := by
        revert h; cases (step r op).2.isSome <;> simp
      rw [this]
      simpa using ih (step r op).1

theorem fired_op_is_ingest (ops : List Op) :
    ∀ r : AudioRecorder, ∀ p ∈ ops.zip (runEvents r ops),
      p.2.isSome = true → ∃ c, p.1 = Op.ing c := by
  induction ops with
  | nil => intro r p hp; simp at hp
  | cons op ops ih =>
    intro r p hp hs
    rw [runEvents, List.zip_cons_cons, List.mem_cons] at hp
    rcases hp with hp | hp
    · subst hp
      cases op with
      | ing c => exact ⟨c, rfl⟩
      | stp => rw [step_event_stp] at hs; simp at hs
      | cnc => rw [step_event_cnc] at hs; simp at hs
    · exact ih _ p hp hs

/-! ### Frame-buffer lemmas -/

theorem runIngest_frames (cs : List (List ℤ)) :
    ∀ r : AudioRecorder, (runIngest r cs).frames = r.frames ++ acceptedChunks r cs := by
  induction cs with
  | nil => intro r; simp [runIngest, acceptedChunks]
  | cons c cs ih =>
    intro r
    rw [runIngest, acceptedChunks]
    by_cases h : r.recording = true
    · rw [if_pos h, ih, audio_callback_frames c h, List.append_assoc,
        List.singleton_append]
    · have hf : r.recording = false := by
        revert h; cases r.recording <;> simp
      rw [if_neg (by simp [hf]), audio_callback_not_recording c hf, ih]

theorem stop_payload (r : AudioRecorder) :
    (stop r).2 = if r.frames = [] then none else some r.frames.flatten := by
  unfold stop
  split_ifs with h1 h2 <;> first | rfl | exact absurd h1.2 h2

theorem start_frames {r : AudioRecorder} (h : r.recording = false) :
    (start r).frames = [] := by
  unfold start
  rw [if_neg (by simp [h])]

theorem start_recording {r : AudioRecorder} (h : r.recording = false) :
    (start r).recording = true := by
  unfold start
  rw [if_neg (by simp [h])]

theorem wavDataSection_append (a b : List ℤ) :
    wavDataSection (a ++ b) = wavDataSection a ++ wavDataSection b := by
  unfold wavDataSection
  rw [List.flatMap_append]

theorem wavDataSection_flatten (l : List (List ℤ)) :
    wavDataSection l.flatten = (l.map wavDataSection).flatten := by
  induction l with
  | nil => rfl
  | cons a l ih =>
    rw [List.flatten_cons, wavDataSection_append, List.map_cons, List.flatten_cons, ih]

/-! ### Facts about the float model -/

theorem rne_nonneg {x : ℚ} (h : 0 ≤ x) : 0 ≤ rne x := by
  unfold rne
  have hf : (0 : ℤ) ≤ ⌊x⌋ := Int.floor_nonneg.mpr h
  split_ifs <;> omega

theorem roundToDouble_nonneg (q : ℚ) : 0 ≤ roundToDouble q := by
  unfold roundToDouble
  split_ifs with h
  · exact le_refl 0
  · push_neg at h
    apply mul_nonneg
    · exact_mod_cast rne_nonneg (div_nonneg h.le (zpow_nonneg (by norm_num) _))
    · exact zpow_nonneg (by norm_num) _

theorem pyInt_eq_floor {q : ℚ} (h : 0 ≤ q) : pyInt q = ⌊q⌋ := by
  rw [pyInt, Int.tdiv_eq_ediv (Rat.num_nonneg.mpr h) (Int.ofNat_nonneg q.den)]
  exact Rat.floor_def.symm

theorem pyDiv_floor (a b : ℚ) : pyInt (pyDiv a b) = ⌊pyDiv a b⌋ :=
  pyInt_eq_floor (roundToDouble_nonneg _)

/-! ### Threshold-zero lemma for the grace/silence logic -/

theorem audio_callback_event_zero_threshold {r : AudioRecorder} (c : List ℤ)
    (hθ : r.silence_threshold = 0) :
    (audio_callback r c).2 = none ∨ (audio_callback r c).2 = some StopReason.maxdur := by
  unfold audio_callback
  split_ifs with h1 h2
  · exact Or.inl rfl
  · rw [hθ] at h2
    exact absurd h2 (lt_irrefl 0)
  · exact Or.inr rfl
  · exact Or.inl rfl

theorem ingestEvents_zero_threshold (cs : List (List ℤ)) :
    ∀ r : AudioRecorder, r.silence_threshold = 0 →
      ∀ e ∈ ingestEvents r cs, e = none ∨ e = some StopReason.maxdur := by
  induction cs with
  | nil => intro r _ e he; simp [ingestEvents] at he
  | cons c cs ih =>
    intro r hθ e he
    rw [ingestEvents, List.mem_cons] at he
    rcases he with he | he
    · subst he
      exact audio_callback_event_zero_threshold c hθ
    · exact ih _ (by rw [audio_callback_threshold, hθ]) e he

theorem start_threshold (r : AudioRecorder) :
    (start r).silence_threshold = r.silence_threshold := by
  unfold start
  split <;> rfl

set_option maxRecDepth 100000

/-! ### The claims -/

/-- Claim C1: for every sequence of chunks ingested while the session is
recording, the payload produced by `stop()` is exactly the concatenation,
in arrival order, of every ingested chunk's samples — no chunk dropped,
reordered, or duplicated — and the WAV data section is the little-endian
byte concatenation of those chunks' encodings. -/
theorem claim_C1_payload_is_ordered_concat (r : AudioRecorder) (cs : List (List ℤ))
    (h : r.recording = false) :
    (stop (runIngest (start r) cs)).2 =
      (if acceptedChunks (start r) cs = [] then none
       else some (acceptedChunks (start r) cs).flatten) ∧
    ((stop (runIngest (start r) cs)).2).map wavDataSection =
      (if acceptedChunks (start r) cs = [] then none
       else some ((acceptedChunks (start r) cs).map wavDataSection).flatten) := by
  have hfr : (runIngest (start r) cs).frames = acceptedChunks (start r) cs := by
    rw [runIngest_frames, start_frames h, List.nil_append]
  refine ⟨?_, ?_⟩
  · rw [stop_payload, hfr]
  · rw [stop_payload, hfr]
    by_cases he : acceptedChunks (start r) cs = []
    · simp [he]
    · simp [he, wavDataSection_flatten]

/-- Claim C1 witness: the theorem applied to the default configuration and
two concrete chunks. -/
theorem claim_C1_witness :
    cfgDefault.recording = false ∧
    ((stop (runIngest (start cfgDefault) [[1], [2]])).2 =
      (if acceptedChunks (start cfgDefault) [[1], [2]] = [] then none
       else some (acceptedChunks (start cfgDefault) [[1], [2]]).flatten) ∧
    ((stop (runIngest (start cfgDefault) [[1], [2]])).2).map wavDataSection =
      (if acceptedChunks (start cfgDefault) [[1], [2]] = [] then none
       else some ((acceptedChunks (start cfgDefault) [[1], [2]]).map wavDataSection).flatten)) :=
  ⟨rfl, claim_C1_payload_is_ordered_concat cfgDefault [[1], [2]] rfl⟩

/-- Claim C2: over any sequence of ingest/stop/cancel operations on one
session (a session is the span from a `start()` to termination; a later
effective `start()` would begin a new session), the automatic-stop
completion event — the event on which `on_auto_stop` is dispatched when
present — occurs at most once, and every such event is produced by an
ingest operation; `stop()` and `cancel()` operations never produce one.
The bound holds from an arbitrary state, hence in particular from
`start r`. -/
theorem claim_C2_callback_at_most_once (r : AudioRecorder) (ops : List Op) :
    countFires (runEvents r ops) ≤ 1 ∧
    ∀ p ∈ ops.zip (runEvents r ops), p.2.isSome = true → ∃ c, p.1 = Op.ing c :=
  ⟨countFires_le_one ops r, fired_op_is_ingest ops r⟩

/-- Claim C2 witness: the theorem applied to a started default session and
a concrete operation sequence. -/
theorem claim_C2_witness :
    countFires (runEvents (start cfgDefault) [Op.ing [5000], Op.stp, Op.cnc]) ≤ 1 ∧
    ∀ p ∈ [Op.ing [5000], Op.stp, Op.cnc].zip
        (runEvents (start cfgDefault) [Op.ing [5000], Op.stp, Op.cnc]),
      p.2.isSome = true → ∃ c, p.1 = Op.ing c :=
  claim_C2_callback_at_most_once (start cfgDefault) [Op.ing [5000], Op.stp, Op.cnc]

/-- Claim C3 counterexample: the claim says the thresholds are ceilings.
With silence_duration 0.25 (an exact double) the code computes
`int(0.25 / 0.1) = 2`, while `ceil(0.25 / 0.1) = 3`: durations are rounded
down, not up. -/
theorem claim_C3_counterexample :
    (start (init 16000 1 fp001 (roundToDouble (1/4)) 10 120 true)).silence_chunks_needed = 2 ∧
    ⌈(roundToDouble (1/4) : ℚ) / ((1:ℚ)/10)⌉ = 3 :=
  ⟨by with_unfolding_all rfl, by with_unfolding_all rfl⟩

/-- Claim C3 (amended): the chunk thresholds fixed at `start()` are the
floor (Python `int()` truncation, which equals the floor for the
nonnegative durations the model covers) of the double-precision quotient
duration / 0.1 — not the ceiling of the exact quotient. -/
theorem claim_C3_thresholds_truncate (r : AudioRecorder) (h : r.recording = false)
    (h1 : 0 ≤ r.silence_duration) (h2 : 0 ≤ r.grace_period) (h3 : 0 ≤ r.max_duration) :
    (start r).silence_chunks_needed = ⌊pyDiv r.silence_duration fp01⌋ ∧
    (start r).grace_chunks = ⌊pyDiv r.grace_period fp01⌋ ∧
    (start r).max_chunks = ⌊pyDiv r.max_duration fp01⌋ := by
  unfold start
  rw [if_neg (by simp [h])]
  exact ⟨pyDiv_floor _ _, pyDiv_floor _ _, pyDiv_floor _ _⟩

/-- Claim C3 witness: the amended theorem applied to the default
configuration (durations 2.0, 10.0, 120.0). -/
theorem claim_C3_witness :
    (cfgDefault.recording = false ∧ 0 ≤ cfgDefault.silence_duration ∧
      0 ≤ cfgDefault.grace_period ∧ 0 ≤ cfgDefault.max_duration) ∧
    ((start cfgDefault).silence_chunks_needed = ⌊pyDiv cfgDefault.silence_duration fp01⌋ ∧
      (start cfgDefault).grace_chunks = ⌊pyDiv cfgDefault.grace_period fp01⌋ ∧
      (start cfgDefault).max_chunks = ⌊pyDiv cfgDefault.max_duration fp01⌋) :=
  ⟨⟨rfl, by with_unfolding_all decide, by with_unfolding_all decide,
      by with_unfolding_all decide⟩,
   claim_C3_thresholds_truncate cfgDefault rfl (by with_unfolding_all decide)
     (by with_unfolding_all decide) (by with_unfolding_all decide)⟩

/-- Claim C4 counterexample: with silence_duration 0.3, after one speech
chunk the post-speech-silence auto-stop fires on the 2nd silent chunk, not
the 3rd (in double arithmetic 0.3 / 0.1 < 3, so `int` yields 2); by the
3rd silent chunk the session is already stopped and the callback is a
no-op. -/
theorem claim_C4_counterexample :
    (audio_callback (runIngest (start cfgC4) [[5000]]) [0]).2 = none ∧
    (audio_callback (runIngest (start cfgC4) [[5000], [0]]) [0]).2 = some StopReason.silence ∧
    (audio_callback (runIngest (start cfgC4) [[5000], [0], [0]]) [0]).2 = none :=
  ⟨by with_unfolding_all rfl, by with_unfolding_all rfl, by with_unfolding_all rfl⟩

/-- Claim C4 (amended): with silenceDurationSeconds = 0.3 and 0.1 s chunks,
after one speech chunk the silent-chunk threshold fixed at `start()` is 2
(`int(0.3 / 0.1)` evaluates to 2 because the double quotient is just below
3), and the auto-stop triggers exactly on the 2nd silent chunk — with
`silentRun` reaching 2 — and not on the 1st. -/
theorem claim_C4_stops_on_second_silent_chunk :
    (start cfgC4).silence_chunks_needed = 2 ∧
    (runIngest (start cfgC4) [[5000], [0]]).silent_chunks = 1 ∧
    (audio_callback (runIngest (start cfgC4) [[5000], [0]]) [0]).2 = some StopReason.silence ∧
    (audio_callback (runIngest (start cfgC4) [[5000], [0]]) [0]).1.silent_chunks = 2 :=
  ⟨by with_unfolding_all rfl, by with_unfolding_all rfl,
   by with_unfolding_all rfl, by with_unfolding_all rfl⟩

/-- Claim C5 counterexample: on a session that auto-stopped with one
undrained frame, the first `stop()` returns the payload, and the second
`stop()` returns the same payload again — not the no-data result — because
`stop()` never clears `_frames`. -/
theorem claim_C5_counterexample :
    c5stopped.recording = false ∧ c5stopped.frames = [[7]] ∧
    (stop c5stopped).2 = some [7] ∧
    (stop (stop c5stopped).1).2 = some [7] ∧
    (stop (stop c5stopped).1).2 ≠ none :=
  ⟨by with_unfolding_all rfl, by with_unfolding_all rfl, by with_unfolding_all rfl,
   by with_unfolding_all rfl, by with_unfolding_all decide⟩

/-- Claim C5 (amended): on a session that has already auto-stopped with
non-empty frames, the first `stop()` returns the finalized payload, and a
second `stop()` after that drain returns the same payload again (not the
no-data result): only `start()` and `cancel()` clear the frame buffer. -/
theorem claim_C5_second_stop_returns_payload_again (r : AudioRecorder)
    (h : r.recording = false) (h2 : r.frames ≠ []) :
    (stop r).2 = some r.frames.flatten ∧
    (stop ((stop r).1)).2 = some r.frames.flatten := by
  have h1frames : ((stop r).1).frames = r.frames := by
    unfold stop
    split_ifs <;> rfl
  constructor
  · rw [stop_payload, if_neg h2]
  · rw [stop_payload, h1frames, if_neg h2]

/-- Claim C5 witness: the amended theorem applied to the concrete
auto-stopped session. -/
theorem claim_C5_witness :
    (c5stopped.recording = false ∧ c5stopped.frames ≠ []) ∧
    ((stop c5stopped).2 = some c5stopped.frames.flatten ∧
      (stop ((stop c5stopped).1)).2 = some c5stopped.frames.flatten) :=
  ⟨⟨by with_unfolding_all rfl, by with_unfolding_all decide⟩,
   claim_C5_second_stop_returns_payload_again c5stopped
     (by with_unfolding_all rfl) (by with_unfolding_all decide)⟩

/-- Claim C6: a session started with silenceThreshold = 0 never emits the
post-speech-silence or grace-timeout auto-stop event on any ingested chunk
sequence — every automatic-stop event is the max-duration one — so the
session leaves the recording state only via explicit `stop()`, `cancel()`,
or the max-duration condition (an ingest turns `_recording` off exactly
when it emits an event). -/
theorem claim_C6_threshold_zero_no_silence_grace (r : AudioRecorder)
    (cs : List (List ℤ)) (hθ : r.silence_threshold = 0) :
    ∀ e ∈ ingestEvents (start r) cs, e = none ∨ e = some StopReason.maxdur :=
  ingestEvents_zero_threshold cs (start r) (by rw [start_threshold, hθ])

/-- Claim C6 witness: the theorem applied to a threshold-0 configuration
and two concrete chunks. -/
theorem claim_C6_witness :
    (init 16000 1 0 2 10 120 true).silence_threshold = 0 ∧
    ∀ e ∈ ingestEvents (start (init 16000 1 0 2 10 120 true)) [[0], [9000]],
      e = none ∨ e = some StopReason.maxdur :=
  ⟨rfl, claim_C6_threshold_zero_no_silence_grace (init 16000 1 0 2 10 120 true)
    [[0], [9000]] rfl⟩

/-- Claim C7: when the session is not recording (after stop, cancel, or
auto-stop), an ingest call is a complete no-op — the whole state (frames,
speechDetected, silentRun, recording flag) is unchanged and no
automatic-stop event is emitted. -/
theorem claim_C7_ingest_noop_when_not_recording (r : AudioRecorder) (c : List ℤ)
    (h : r.recording = false) : audio_callback r c = (r, none) :=
  audio_callback_not_recording c h

/-- Claim C7 witness: the theorem applied to a fresh default recorder. -/
theorem claim_C7_witness :
    cfgDefault.recording = false ∧ audio_callback cfgDefault [3] = (cfgDefault, none) :=
  ⟨rfl, claim_C7_ingest_noop_when_not_recording cfgDefault [3] rfl⟩

/-- Claim C8: calling `start()` while already recording returns without
modifying anything — frames, counters, thresholds and the recording flag
are all exactly those of the session begun by the first `start()`. -/
theorem claim_C8_double_start_noop (r : AudioRecorder) (h : r.recording = true) :
    start r = r := by
  unfold start
  rw [if_pos h]

/-- Claim C8 witness: the theorem applied to a freshly started default
session. -/
theorem claim_C8_witness :
    (start cfgDefault).recording = true ∧
    start (start cfgDefault) = start cfgDefault :=
  ⟨by with_unfolding_all rfl,
   claim_C8_double_start_noop (start cfgDefault) (by with_unfolding_all rfl)⟩

/-- Claim C9: `stop()` on a freshly constructed recorder on which `start()`
was never called returns the no-data result and leaves the state unchanged,
raising no error even though no capture stream exists. -/
theorem claim_C9_stop_before_start_returns_none (sample_rate channels : ℤ)
    (silence_threshold silence_duration grace_period max_duration : ℚ) (cb : Bool) :
    stop (init sample_rate channels silence_threshold silence_duration
        grace_period max_duration cb) =
      (init sample_rate channels silence_threshold silence_duration
        grace_period max_duration cb, none) := by
  unfold stop
  rw [if_pos ⟨rfl, rfl⟩]

/-- Claim C9 witness: the theorem applied to the default configuration. -/
theorem claim_C9_witness : stop cfgDefault = (cfgDefault, none) :=
  claim_C9_stop_before_start_returns_none 16000 1 fp001 2 10 120 true

/-- Claim C10: while recording with a positive silence threshold, an ingest
whose chunk classifies as speech (normalized mean absolute amplitude at
least the threshold, so `is_silent` is false) never emits the grace-timeout
event in that same call: `_speech_detected` is set before the grace
condition is evaluated.  The statement needs no recording hypothesis — a
non-recording ingest emits no event at all. -/
theorem claim_C10_speech_never_grace (r : AudioRecorder) (c : List ℤ)
    (h : 0 < r.silence_threshold) (h2 : r.silence_threshold ≤ amplitude c) :
    (audio_callback r c).2 ≠ some StopReason.grace := by
  unfold audio_callback
  split_ifs with h1
  · simp
  · unfold classifyUpdate
    rw [if_neg (not_lt.mpr h2)]
    unfold checkStops
    split_ifs with hA hB
    · simp
    · simp at hB
    · simp
    · simp

/-- Claim C10 witness: the theorem applied to a started default session and
a loud chunk. -/
theorem claim_C10_witness :
    (0 < (start cfgDefault).silence_threshold ∧
      (start cfgDefault).silence_threshold ≤ amplitude [5000]) ∧
    (audio_callback (start cfgDefault) [5000]).2 ≠ some StopReason.grace :=
  ⟨⟨by with_unfolding_all decide, by with_unfolding_all decide⟩,
   claim_C10_speech_never_grace (start cfgDefault) [5000]
     (by with_unfolding_all decide) (by with_unfolding_all decide)⟩
